import Mathlib

/-!
Shallow embedding of `src/server/portal/websocket.py` (class `WebSocketProtocol`).

Python 2 strings are modelled as `List Char`.  Python values that can flow
through the OOB machinery (results of `json.loads`, arguments of
`data_in(oob=...)`) are modelled by `PyVal`; note that `json.loads` can
never produce `PyVal.tuple` (JSON arrays decode to Python lists), the
constructor exists only because the source tests `isinstance(oobdata, tuple)`.

Every call the protocol makes into an external collaborator
(`sessionhandler`, `log_trace`, `sendLine`, `transport`) is recorded as an
`Event`; a method of the protocol is embedded as a function returning the
list of events it emits, paired (for `dataReceived`) with the Python
exception that escapes the method, if any.  External pure helpers
(`to_str`, the sessionhandler's oobstruct parsing, `json.dumps`,
`parse_html`) live outside `src/` and are taken as parameters in `WsExt`.
-/

/-- Python strings, modelled as lists of characters. -/
abbrev Str : Type := List Char

/-- Conversion from a Lean string literal to the `Str` model. -/
def chars (s : String) : Str := s.data

/-- Python values reachable in this module: `None`, booleans, integers,
strings, lists, tuples and string-keyed dicts.  (JSON floats never occur in
the payloads the claims are about and are omitted.) -/
inductive PyVal where
  | none
  | bool (b : Bool)
  | int (n : Int)
  | str (s : Str)
  | list (xs : List PyVal)
  | tuple (xs : List PyVal)
  | dict (kvs : List (Str × PyVal))

/-- Python exceptions that can escape a method of the embedded class. -/
inductive PyError where
  | nameError (var : String)
  | typeError
deriving DecidableEq

/-- Calls the protocol makes into its collaborators, in program order. -/
inductive Event where
  | initSession
  | sessionConnect
  | sessionDisconnect
  | loseConnection
  | dataIn (text : Option Str) (oob : Option PyVal)
  | logTrace (msg : Str)
  | sendLine (arg : Option Str)

/-- External pure collaborators of the protocol, none of whose code is under
`src/`: `to_str` (which either returns the converted string or fails with
the `str(e)` text of the raised exception), the sessionhandler's
oobstruct-parsing step used by `data_out`, `json.dumps`, and
`parse_html` (whose argument is `Option Str` because, on the
conversion-failure path with no text supplied, the Python code passes the
unrebound `None` through to it). -/
structure WsExt where
  to_str : Str → Str → Except Str Str
  oobstructParse : PyVal → PyVal
  dumps : PyVal → Str
  parse_html : Option Str → Bool → Str

/-- Comma-and-space join, as Python uses when rendering containers. -/
def commaJoin : List Str → Str
  | [] => []
  | [x] => x
  | x :: y :: xs => x ++ chars ", " ++ commaJoin (y :: xs)

mutual
/-- Python 2 `repr` of a json-decoded value (strings are unicode, hence the
`u` markers; a brace is written with an escape). -/
def pyRepr : PyVal → Str
  | PyVal.none => chars "None"
  | PyVal.bool b => if b then chars "True" else chars "False"
  | PyVal.int n => chars (toString n)
  | PyVal.str s => chars "u\x27" ++ s ++ chars "\x27"
  | PyVal.list xs => chars "[" ++ commaJoin (pyReprList xs) ++ chars "]"
  | PyVal.tuple xs =>
      chars "(" ++ commaJoin (pyReprList xs) ++
        (if xs.length = 1 then chars ",)" else chars ")")
  | PyVal.dict kvs => chars "\x7b" ++ commaJoin (pyReprDict kvs) ++ chars "\x7d"

/-- The element renderings of a list value. -/
def pyReprList : List PyVal → List Str
  | [] => []
  | x :: xs => pyRepr x :: pyReprList xs

/-- The `key: value` renderings of a dict value. -/
def pyReprDict : List (Str × PyVal) → List Str
  | [] => []
  | (k, v) :: kvs =>
      (chars "u\x27" ++ k ++ chars "\x27: " ++ pyRepr v) :: pyReprDict kvs
end

/-- Python 2 `str` of a json-decoded value: the characters themselves for a
string, `repr` otherwise. -/
def pyStr : PyVal → Str
  | PyVal.str s => s
  | v => pyRepr v

/-- The format text of the `log_trace` call in `dataReceived`, up to the
trailing `%s` placeholder. -/
def logMsg : Str := chars "Websocket malformed OOB request: "

/-- Python 2 `"Websocket malformed OOB request: %s" % oobdata`.  The `%`
operator treats a tuple operand as the argument pack: a 1-tuple formats its
element, any other tuple arity raises `TypeError`; a non-tuple operand is
formatted with `str`. -/
def formatMalformed : PyVal → Except PyError Str
  | PyVal.tuple [x] => Except.ok (logMsg ++ pyStr x)
  | PyVal.tuple _ => Except.error PyError.typeError
  | v => Except.ok (logMsg ++ pyStr v)

/-- Embedding of `WebSocketProtocol.dataReceived(string)`.  `loads` stands
for the external `json.loads`, returning `none` when it raises.  The result
is the emitted event list together with the exception escaping the method,
if any.  Faithful details: when `json.loads` raises, the bare `except`
handler formats `oobdata`, a local that was never bound, so a `NameError`
escapes; in the `isinstance(oobdata, tuple)` branch the code references the
loop variable `oobtuple` of the untaken list branch, so a `NameError` is
raised, caught by the same bare `except`, and the malformed-request line is
logged with `oobdata` instead (escaping with `TypeError` for tuple arity
other than one, per the `%` operator). -/
def dataReceived (loads : Str → Option PyVal) (s : Str) :
    List Event × Option PyError :=
  if s.take 3 = chars "OOB" then
    match loads (s.drop 3) with
    | Option.none => ([], some (PyError.nameError "oobdata"))
    | some oobdata =>
      match oobdata with
      | PyVal.list xs =>
          (xs.map (fun oobtuple => Event.dataIn Option.none (some oobtuple)),
           Option.none)
      | PyVal.tuple _ =>
          match formatMalformed oobdata with
          | Except.ok m => ([Event.logTrace m], Option.none)
          | Except.error e => ([], some e)
      | _ =>
          match formatMalformed oobdata with
          | Except.ok m => ([Event.logTrace m], Option.none)
          | Except.error e => ([], some e)
  else
    ([Event.dataIn (some s) Option.none], Option.none)

/-- Python truthiness choice `text if text else ""` on the optional `text`
argument of `data_out`. -/
def textOrEmpty : Option Str → Str
  | some t => if t = [] then [] else t
  | Option.none => []

/-- The wire line `"OOB" + json.dumps(oobstruct)` emitted by `data_out`
when an `oob` keyword is present, where `oobstruct` is produced by the
sessionhandler's oobstruct parsing of the payload. -/
def oobLines (ext : WsExt) : Option PyVal → List Event
  | some payload =>
      [Event.sendLine (some (chars "OOB" ++ ext.dumps (ext.oobstructParse payload)))]
  | Option.none => []

/-- The final text line of `data_out`: verbatim when `raw`, otherwise the
`parse_html` rendering with `strip_ansi=nomarkup`. -/
def textLine (ext : WsExt) (t : Option Str) (raw nomarkup : Bool) : Event :=
  if raw then Event.sendLine t
  else Event.sendLine (some (ext.parse_html t nomarkup))

/-- Embedding of `WebSocketProtocol.data_out(text=None, **kwargs)`.  On a
`to_str` success the local `text` is rebound to the converted string; on
failure `sendLine(str(e))` runs and — there being no early return — the
method continues with `text` still holding the original argument, then
emits the OOB line (when an `oob` keyword was supplied) and the text
line. -/
def data_out (ext : WsExt) (encoding : Str) (text : Option Str)
    (oob : Option PyVal) (raw nomarkup : Bool) : List Event :=
  match ext.to_str (textOrEmpty text) encoding with
  | Except.ok t => oobLines ext oob ++ [textLine ext (some t) raw nomarkup]
  | Except.error e =>
      Event.sendLine (some e) :: (oobLines ext oob ++ [textLine ext text raw nomarkup])

/-- Embedding of `WebSocketProtocol.connectionLost(reason)`: unregister
from the sessionhandler, then release the transport.  The method keeps no
state and performs no already-disconnected check. -/
def connectionLost (reason : Option Str) : List Event :=
  [Event.sessionDisconnect, Event.loseConnection]

/-- Embedding of `WebSocketProtocol.disconnect(reason=None)`: when `reason`
is truthy (a non-empty string) send it as a final text frame via
`data_out`, then delegate to `connectionLost`. -/
def disconnect (ext : WsExt) (encoding : Str) (reason : Option Str) : List Event :=
  (match reason with
   | some r => if r = [] then [] else data_out ext encoding (some r) Option.none false false
   | Option.none => []) ++ connectionLost reason

/-- Embedding of `WebSocketProtocol.connectionMade`: session initialisation
followed by registration with the sessionhandler. -/
def connectionMade : List Event :=
  [Event.initSession, Event.sessionConnect]

/-- The calls the runtime can drive the protocol object with. -/
inductive WsAction where
  | receive (s : Str)
  | doDisconnect (reason : Option Str)
  | connLost (reason : Option Str)
  | send (text : Option Str) (oob : Option PyVal) (raw nomarkup : Bool)

/-- Events emitted by one driven call.  The object holds no lifecycle flag,
so the handler of each call is a function of the call alone. -/
def step (loads : Str → Option PyVal) (ext : WsExt) (encoding : Str) :
    WsAction → List Event
  | WsAction.receive s => (dataReceived loads s).1
  | WsAction.doDisconnect r => disconnect ext encoding r
  | WsAction.connLost r => connectionLost r
  | WsAction.send t o r n => data_out ext encoding t o r n

/-- Events emitted by a sequence of driven calls, in order. -/
def run (loads : Str → Option PyVal) (ext : WsExt) (encoding : Str) :
    List WsAction → List Event
  | [] => []
  | a :: as => step loads ext encoding a ++ run loads ext encoding as

/-- Whether an event is the unregistration call
`sessionhandler.disconnect(self)`. -/
def isUnregister : Event → Bool
  | Event.sessionDisconnect => true
  | _ => false

/-- Number of unregistration calls in an event list. -/
def countUnregister (es : List Event) : Nat := es.countP isUnregister

/-- Concrete stand-in for the external `json.loads`, used by closed
witnesses: on each listed payload it returns exactly what `json.loads`
returns there (JSON arrays decode to Python lists and objects to dicts;
`json.loads` never yields a tuple), and it reports a parse failure on
anything else — in particular on `notjson`, which is not JSON. -/
def jsonLoadsFixture (s : Str) : Option PyVal :=
  if s = chars "\x7b\x7d" then some (PyVal.dict [])
  else if s = chars "[1,2]" then some (PyVal.list [PyVal.int 1, PyVal.int 2])
  else if s = chars "[\"f\",[1,2],\x7b\x7d]" then
    some (PyVal.list [PyVal.str (chars "f"),
                      PyVal.list [PyVal.int 1, PyVal.int 2],
                      PyVal.dict []])
  else if s = chars "[[\"f\",[1,2],\x7b\x7d],[\"g\",[],\x7b\"x\":1\x7d]]" then
    some (PyVal.list
      [PyVal.list [PyVal.str (chars "f"),
                   PyVal.list [PyVal.int 1, PyVal.int 2],
                   PyVal.dict []],
       PyVal.list [PyVal.str (chars "g"),
                   PyVal.list [],
                   PyVal.dict [(chars "x", PyVal.int 1)]]])
  else Option.none

/-- Concrete collaborators for witnesses: encoding conversion succeeds and
is the identity. -/
def extOk : WsExt where
  to_str := fun t _ => Except.ok t
  oobstructParse := fun v => v
  dumps := fun _ => chars "null"
  parse_html := fun t _ => t.getD []

/-- Concrete collaborators for the encoding-failure path: `to_str` always
raises, with `str(e)` equal to `encode error`. -/
def extFail : WsExt where
  to_str := fun _ _ => Except.error (chars "encode error")
  oobstructParse := fun v => v
  dumps := fun _ => chars "null"
  parse_html := fun t _ => t.getD []

/-- Helper: events emitted by a concatenation of driven calls. -/
theorem run_append (L : Str → Option PyVal) (E : WsExt) (c : Str)
    (as bs : List WsAction) :
    run L E c (as ++ bs) = run L E c as ++ run L E c bs := by
  induction as with
  | nil => simp [run]
  | cons a as ih => simp [run, ih]

/-- Helper: unregistration count distributes over concatenation. -/
theorem countUnregister_append (a b : List Event) :
    countUnregister (a ++ b) = countUnregister a + countUnregister b :=
  List.countP_append ..

/-- Helper: `data_out` only ever calls `sendLine`; it never unregisters. -/
theorem countUnregister_data_out (E : WsExt) (c : Str) (t : Option Str)
    (o : Option PyVal) (raw nm : Bool) :
    countUnregister (data_out E c t o raw nm) = 0 := by
  unfold data_out
  cases E.to_str (textOrEmpty t) c <;> cases o <;> cases raw <;>
    simp [oobLines, textLine, countUnregister, isUnregister, List.countP_cons,
      List.countP_append]

/-- Helper: `connectionLost` makes exactly one unregistration call. -/
theorem countUnregister_connectionLost (r : Option Str) :
    countUnregister (connectionLost r) = 1 := rfl

/-- Helper: one `disconnect` call makes exactly one unregistration call. -/
theorem countUnregister_disconnect (E : WsExt) (c : Str) (r : Option Str) :
    countUnregister (disconnect E c r) = 1 := by
  unfold disconnect
  rw [countUnregister_append, countUnregister_connectionLost]
  cases r with
  | none => rfl
  | some s =>
    by_cases h : s = []
    · simp [h, countUnregister]
    · simp [h, countUnregister_data_out]

/-- Claim C1 (code-bug evaluation): for the inbound frame `OOBnotjson` the
remainder is not valid JSON, so `json.loads` raises; the bare `except`
handler then formats the log message with the local `oobdata`, which was
never bound, so a `NameError` escapes `dataReceived`: no instruction is
routed, but no malformed-frame diagnostic is recorded either and an
exception does escape the boundary, contrary to the claim. -/
theorem c1_parse_failure_crash :
    dataReceived jsonLoadsFixture (chars "OOBnotjson") =
      ([], some (PyError.nameError "oobdata")) := rfl

/-- Claim C2 (counterexample): calling `disconnect` twice in sequence makes
two unregistration calls to `sessionhandler.disconnect`, not exactly one —
the class keeps no disconnected flag, so the second call is not a no-op. -/
theorem c2_counterexample :
    countUnregister (run jsonLoadsFixture extOk (chars "utf-8")
        [WsAction.doDisconnect Option.none, WsAction.doDisconnect Option.none]) = 2 ∧
    ¬ countUnregister (run jsonLoadsFixture extOk (chars "utf-8")
        [WsAction.doDisconnect Option.none, WsAction.doDisconnect Option.none]) = 1 :=
  ⟨rfl, by decide⟩

/-- Claim C2 (amended): every `disconnect` or `connectionLost` invocation
makes exactly one unregistration call, so two invocations in sequence —
whether `disconnect` twice, or `disconnect` followed by the
transport-initiated `connectionLost` — make exactly two. -/
theorem c2_two_unregister_calls (L : Str → Option PyVal) (E : WsExt) (c : Str)
    (r1 r2 : Option Str) :
    countUnregister (run L E c
        [WsAction.doDisconnect r1, WsAction.doDisconnect r2]) = 2 ∧
    countUnregister (run L E c
        [WsAction.doDisconnect r1, WsAction.connLost r2]) = 2 := by
  constructor
  · simp only [run, step, List.append_nil]
    rw [countUnregister_append, countUnregister_disconnect,
      countUnregister_disconnect]
  · simp only [run, step, List.append_nil]
    rw [countUnregister_append, countUnregister_disconnect,
      countUnregister_connectionLost]

/-- Claim C3 (code-bug evaluation): a single instruction not wrapped in an
array, here the frame `OOB["f",[1,2],\x7b\x7d]`, decodes under `json.loads`
to a Python list (never a tuple), so the list branch iterates over the
instruction and forwards its three components as three separate OOB
dispatches instead of one one-element batch; the tuple branch meant for
this case is unreachable. -/
theorem c3_single_instruction_exploded :
    dataReceived jsonLoadsFixture (chars "OOB[\"f\",[1,2],\x7b\x7d]") =
      ([Event.dataIn Option.none (some (PyVal.str (chars "f"))),
        Event.dataIn Option.none (some (PyVal.list [PyVal.int 1, PyVal.int 2])),
        Event.dataIn Option.none (some (PyVal.dict []))], Option.none) := rfl

/-- Claim C7: an inbound message whose first three characters are not the
token `OOB` is routed to the dispatcher whole and unmodified as plain text,
and nothing escapes. -/
theorem c7_plain_text_routed (L : Str → Option PyVal) (s : Str)
    (h : ¬ s.take 3 = chars "OOB") :
    dataReceived L s = ([Event.dataIn (some s) Option.none], Option.none) := by
  unfold dataReceived
  rw [if_neg h]

/-- Witness for C7 at the concrete message `hello`. -/
theorem c7_plain_text_routed_witness :
    dataReceived jsonLoadsFixture (chars "hello") =
      ([Event.dataIn (some (chars "hello")) Option.none], Option.none) :=
  c7_plain_text_routed jsonLoadsFixture (chars "hello") (by decide)

/-- Claim C10: a message shorter than three characters can never equal the
three-character token under the prefix test (Python slicing just returns
the whole short string), so it always takes the plain-text path and is
forwarded unchanged, with no error. -/
theorem c10_short_input_plain_text (L : Str → Option PyVal) (s : Str)
    (h : s.length < 3) :
    dataReceived L s = ([Event.dataIn (some s) Option.none], Option.none) := by
  have hs : s.take 3 = s := List.take_of_length_le (Nat.le_of_lt h)
  have hne : ¬ s.take 3 = chars "OOB" := by
    rw [hs]
    intro he
    rw [he] at h
    exact absurd h (by decide)
  unfold dataReceived
  rw [if_neg hne]

/-- Witness for C10 at the concrete two-character message `hi`. -/
theorem c10_short_input_plain_text_witness :
    (chars "hi").length < 3 ∧
    dataReceived jsonLoadsFixture (chars "hi") =
      ([Event.dataIn (some (chars "hi")) Option.none], Option.none) :=
  ⟨by decide, c10_short_input_plain_text jsonLoadsFixture (chars "hi") (by decide)⟩

/-- Claim C4 (counterexample): with a failing encoding conversion, a
`data_out` call carrying text and an OOB payload sends the diagnostic line
and then still sends the OOB line and the text line (built from the
original unconverted text) — the send attempt is not abandoned, so the
output is not the single diagnostic line the claim describes. -/
theorem c4_counterexample :
    data_out extFail (chars "utf-8") (some (chars "hi"))
        (some (PyVal.dict [])) false false =
      [Event.sendLine (some (chars "encode error")),
       Event.sendLine (some (chars "OOBnull")),
       Event.sendLine (some (chars "hi"))] ∧
    ¬ data_out extFail (chars "utf-8") (some (chars "hi"))
        (some (PyVal.dict [])) false false =
      [Event.sendLine (some (chars "encode error"))] :=
  ⟨rfl, fun h => absurd (congrArg List.length h) (by decide)⟩

/-- Claim C4 (amended): when conversion of the outbound text to the
configured encoding fails, `data_out` sends one wire line with the textual
description of the failure first, but the rest of the call is not
abandoned: the OOB line (when a payload was supplied) and the text line are
still sent, the text line built from the original unconverted text. -/
theorem c4_failure_continues (E : WsExt) (c : Str) (text : Option Str)
    (o : Option PyVal) (raw nm : Bool) (e : Str)
    (h : E.to_str (textOrEmpty text) c = Except.error e) :
    data_out E c text o raw nm =
      Event.sendLine (some e) :: (oobLines E o ++ [textLine E text raw nm]) := by
  unfold data_out
  rw [h]

/-- Witness for the amended C4 at a concrete failing conversion. -/
theorem c4_failure_continues_witness :
    data_out extFail (chars "utf-8") (some (chars "hi"))
        (some (PyVal.dict [])) false false =
      Event.sendLine (some (chars "encode error")) ::
        (oobLines extFail (some (PyVal.dict [])) ++
          [textLine extFail (some (chars "hi")) false false]) :=
  c4_failure_continues extFail (chars "utf-8") (some (chars "hi"))
    (some (PyVal.dict [])) false false (chars "encode error") rfl

/-- Claim C5 (counterexample): the frame `OOB[1,2]` decodes to a JSON array
whose elements are not conforming 3-element instruction tuples, yet the
code forwards both elements to the dispatcher as OOB dispatches instead of
treating the frame as malformed and routing nothing. -/
theorem c5_counterexample :
    dataReceived jsonLoadsFixture (chars "OOB[1,2]") =
      ([Event.dataIn Option.none (some (PyVal.int 1)),
        Event.dataIn Option.none (some (PyVal.int 2))], Option.none) ∧
    ¬ (dataReceived jsonLoadsFixture (chars "OOB[1,2]")).1 = [] :=
  ⟨rfl, fun h => absurd (congrArg List.length h) (by decide)⟩

/-- Shape test of the `else`/`raise RuntimeError` branch of `dataReceived`:
the decoded value is neither a Python list nor a tuple. -/
def notListNotTuple : PyVal → Bool
  | PyVal.list _ => false
  | PyVal.tuple _ => false
  | _ => true

/-- Claim C5 (amended): when the decoded OOB payload is neither a list nor
a tuple (a scalar or an object — and `json.loads` can never produce a
tuple), no instruction is routed: the `RuntimeError` is caught, the failure
is logged with the decoded payload (not the original raw string), the
message is discarded and nothing escapes.  A decoded JSON array, whether or
not its elements are conforming instruction tuples, is instead forwarded
element-by-element without validation. -/
theorem c5_scalar_or_object_logged (L : Str → Option PyVal) (rest : Str)
    (v : PyVal) (h1 : L rest = some v) (h2 : notListNotTuple v = true) :
    dataReceived L (chars "OOB" ++ rest) =
      ([Event.logTrace (logMsg ++ pyStr v)], Option.none) := by
  have hl : (chars "OOB").length = 3 := rfl
  have ht := List.take_left (chars "OOB") rest
  have hd := List.drop_left (chars "OOB") rest
  rw [hl] at ht hd
  unfold dataReceived
  rw [if_pos ht, hd, h1]
  cases v <;> simp_all [notListNotTuple, formatMalformed]

/-- Witness for the amended C5 at the concrete frame `OOB` + JSON object. -/
theorem c5_scalar_or_object_logged_witness :
    dataReceived jsonLoadsFixture (chars "OOB" ++ chars "\x7b\x7d") =
      ([Event.logTrace (logMsg ++ pyStr (PyVal.dict []))], Option.none) :=
  c5_scalar_or_object_logged jsonLoadsFixture (chars "\x7b\x7d")
    (PyVal.dict []) rfl rfl

/-- Claim C6 (counterexample): after `disconnect` has run (including the
unregistration and the transport release), a frame delivered to
`dataReceived` is still routed to the dispatcher — the trace is not just
the two disconnect events the claim would allow. -/
theorem c6_counterexample :
    run jsonLoadsFixture extOk (chars "utf-8")
        [WsAction.doDisconnect Option.none, WsAction.receive (chars "hi")] =
      [Event.sessionDisconnect, Event.loseConnection,
       Event.dataIn (some (chars "hi")) Option.none] ∧
    ¬ run jsonLoadsFixture extOk (chars "utf-8")
        [WsAction.doDisconnect Option.none, WsAction.receive (chars "hi")] =
      [Event.sessionDisconnect, Event.loseConnection] :=
  ⟨rfl, fun h => absurd (congrArg List.length h) (by decide)⟩

/-- Claim C6 (amended): the class keeps no disconnected flag, so its
handlers are functions of the call alone: a plain-text frame delivered
after any earlier calls — disconnection included — is still routed to the
dispatcher, and a send attempted after any earlier calls still writes to
the transport (a `data_out` call always emits at least one wire line). -/
theorem c6_no_disconnected_guard (L : Str → Option PyVal) (E : WsExt)
    (c : Str) (as : List WsAction) (s : Str) (t : Option Str)
    (o : Option PyVal) (raw nm : Bool) (h : ¬ s.take 3 = chars "OOB") :
    run L E c (as ++ [WsAction.receive s]) =
      run L E c as ++ [Event.dataIn (some s) Option.none] ∧
    run L E c (as ++ [WsAction.send t o raw nm]) =
      run L E c as ++ data_out E c t o raw nm ∧
    ¬ data_out E c t o raw nm = [] := by
  refine ⟨?_, ?_, ?_⟩
  · rw [run_append]
    simp [run, step, dataReceived, h]
  · rw [run_append]
    simp [run, step]
  · unfold data_out
    cases E.to_str (textOrEmpty t) c <;> cases o <;> simp [oobLines]

/-- Witness for the amended C6: a receive and a send driven after a
disconnect. -/
theorem c6_no_disconnected_guard_witness :
    (run jsonLoadsFixture extOk (chars "utf-8")
        ([WsAction.doDisconnect Option.none] ++ [WsAction.receive (chars "hi")]) =
      run jsonLoadsFixture extOk (chars "utf-8") [WsAction.doDisconnect Option.none] ++
        [Event.dataIn (some (chars "hi")) Option.none]) ∧
    (run jsonLoadsFixture extOk (chars "utf-8")
        ([WsAction.doDisconnect Option.none] ++
          [WsAction.send Option.none Option.none false false]) =
      run jsonLoadsFixture extOk (chars "utf-8") [WsAction.doDisconnect Option.none] ++
        data_out extOk (chars "utf-8") Option.none Option.none false false) ∧
    ¬ data_out extOk (chars "utf-8") Option.none Option.none false false = [] :=
  c6_no_disconnected_guard jsonLoadsFixture extOk (chars "utf-8")
    [WsAction.doDisconnect Option.none] (chars "hi") Option.none Option.none
    false false (by decide)

/-- Claim C8: a frame whose OOB remainder decodes to a JSON array is
forwarded to the dispatcher element-by-element, one `data_in(oob=...)` call
per element, in exactly the array order. -/
theorem c8_array_forwarded_in_order (L : Str → Option PyVal) (s : Str)
    (xs : List PyVal) (h1 : s.take 3 = chars "OOB")
    (h2 : L (s.drop 3) = some (PyVal.list xs)) :
    dataReceived L s =
      (xs.map (fun oobtuple => Event.dataIn Option.none (some oobtuple)),
       Option.none) := by
  unfold dataReceived
  rw [if_pos h1, h2]

/-- Witness for C8 at the concrete two-instruction frame of the spec: the
dispatcher sees `f(1,2)` first and `g(x=1)` second. -/
theorem c8_array_forwarded_in_order_witness :
    dataReceived jsonLoadsFixture
        (chars "OOB[[\"f\",[1,2],\x7b\x7d],[\"g\",[],\x7b\"x\":1\x7d]]") =
      ([Event.dataIn Option.none (some (PyVal.list [PyVal.str (chars "f"),
          PyVal.list [PyVal.int 1, PyVal.int 2], PyVal.dict []])),
        Event.dataIn Option.none (some (PyVal.list [PyVal.str (chars "g"),
          PyVal.list [], PyVal.dict [(chars "x", PyVal.int 1)]]))],
       Option.none) :=
  c8_array_forwarded_in_order jsonLoadsFixture
    (chars "OOB[[\"f\",[1,2],\x7b\x7d],[\"g\",[],\x7b\"x\":1\x7d]]")
    [PyVal.list [PyVal.str (chars "f"),
       PyVal.list [PyVal.int 1, PyVal.int 2], PyVal.dict []],
     PyVal.list [PyVal.str (chars "g"),
       PyVal.list [], PyVal.dict [(chars "x", PyVal.int 1)]]]
    (by decide) rfl

/-- Claim C9: when the encoding conversion succeeds, a `data_out` call that
supplies an OOB payload writes exactly one OOB wire line — the token `OOB`
followed by the JSON encoding of the structure the oobstruct parsing of the
sessionhandler produced — and it is written before the text line, giving
exactly two wire lines for the call. -/
theorem c9_oob_line_first (E : WsExt) (c : Str) (text : Option Str)
    (payload : PyVal) (raw nm : Bool) (t : Str)
    (h : E.to_str (textOrEmpty text) c = Except.ok t) :
    data_out E c text (some payload) raw nm =
      [Event.sendLine (some (chars "OOB" ++ E.dumps (E.oobstructParse payload))),
       textLine E (some t) raw nm] := by
  unfold data_out
  rw [h]
  rfl

/-- Witness for C9 at a concrete call carrying both text and a payload. -/
theorem c9_oob_line_first_witness :
    data_out extOk (chars "utf-8") (some (chars "hi"))
        (some (PyVal.dict [])) false false =
      [Event.sendLine (some (chars "OOB" ++
          extOk.dumps (extOk.oobstructParse (PyVal.dict [])))),
       textLine extOk (some (chars "hi")) false false] :=
  c9_oob_line_first extOk (chars "utf-8") (some (chars "hi"))
    (PyVal.dict []) false false (chars "hi") rfl
